import Mathlib

/-!
Verification of the fitness-tracker module (`homework.py`): workout classes
`Training`, `Running`, `SportsWalking`, `Swimming`, the `InfoMessage`
formatter and the `read_package` dispatcher, embedded over `ℚ`.
-/

/-- Base class `Training`: raw inputs (action count, duration in hours,
weight in kg). -/
structure Training where
  action : ℚ
  duration : ℚ
  weight : ℚ
deriving DecidableEq, Repr

/-- `Training.LEN_STEP = 0.65`. -/
def Training.LEN_STEP : ℚ := 0.65

/-- `Training.M_IN_KM = 1000`. -/
def Training.M_IN_KM : ℚ := 1000

/-- `Training.MIN_IN_HOUR = 60`. -/
def Training.MIN_IN_HOUR : ℚ := 60

/-- `Training.get_distance`: `action * LEN_STEP / M_IN_KM`. -/
def Training.get_distance (t : Training) : ℚ :=
  t.action * Training.LEN_STEP / Training.M_IN_KM

/-- `Training.get_mean_speed`: `get_distance() / duration`. -/
def Training.get_mean_speed (t : Training) : ℚ :=
  t.get_distance / t.duration

/-- `Training.get_mean_speed` with the division fault made explicit:
Python raises `ZeroDivisionError` when `duration = 0`. -/
def Training.get_mean_speedE (t : Training) : Except String ℚ :=
  if t.duration = 0 then Except.error "ZeroDivisionError: division by zero"
  else Except.ok (t.get_distance / t.duration)

/-- Class `Running` (inherits all fields of `Training`). -/
structure Running where
  action : ℚ
  duration : ℚ
  weight : ℚ
deriving DecidableEq, Repr

/-- The base-class view of a `Running` object. -/
def Running.toTraining (r : Running) : Training :=
  ⟨r.action, r.duration, r.weight⟩

/-- `Running.CALORIES_M = 18`. -/
def Running.CALORIES_M : ℚ := 18

/-- `Running.CALORIES_S = 1.79`. -/
def Running.CALORIES_S : ℚ := 1.79

/-- `Running` inherits `get_distance` from `Training`. -/
def Running.get_distance (r : Running) : ℚ :=
  r.toTraining.get_distance

/-- `Running` inherits `get_mean_speed` from `Training`. -/
def Running.get_mean_speed (r : Running) : ℚ :=
  r.toTraining.get_mean_speed

/-- `Running` inherits the faulting `get_mean_speed` from `Training`. -/
def Running.get_mean_speedE (r : Running) : Except String ℚ :=
  r.toTraining.get_mean_speedE

/-- `Running.get_spent_calories`:
`(CALORIES_M * get_mean_speed() + CALORIES_S) * weight / M_IN_KM * duration * MIN_IN_HOUR`. -/
def Running.get_spent_calories (r : Running) : ℚ :=
  (Running.CALORIES_M * r.get_mean_speed + Running.CALORIES_S)
    * r.weight / Training.M_IN_KM * r.duration * Training.MIN_IN_HOUR

/-- Class `SportsWalking` (adds `height` in cm). -/
structure SportsWalking where
  action : ℚ
  duration : ℚ
  weight : ℚ
  height : ℚ
deriving DecidableEq, Repr

/-- The base-class view of a `SportsWalking` object. -/
def SportsWalking.toTraining (t : SportsWalking) : Training :=
  ⟨t.action, t.duration, t.weight⟩

/-- `SportsWalking.CALORIES_C1 = 0.035`. -/
def SportsWalking.CALORIES_C1 : ℚ := 0.035

/-- `SportsWalking.CALORIES_C2 = 0.029`. -/
def SportsWalking.CALORIES_C2 : ℚ := 0.029

/-- `SportsWalking.KM_IN_MS = 0.278`. -/
def SportsWalking.KM_IN_MS : ℚ := 0.278

/-- `SportsWalking.CENTI_IN_MET = 100`. -/
def SportsWalking.CENTI_IN_MET : ℚ := 100

/-- `SportsWalking` inherits `get_distance` from `Training`. -/
def SportsWalking.get_distance (t : SportsWalking) : ℚ :=
  t.toTraining.get_distance

/-- `SportsWalking` inherits `get_mean_speed` from `Training`. -/
def SportsWalking.get_mean_speed (t : SportsWalking) : ℚ :=
  t.toTraining.get_mean_speed

/-- `SportsWalking` inherits the faulting `get_mean_speed` from `Training`. -/
def SportsWalking.get_mean_speedE (t : SportsWalking) : Except String ℚ :=
  t.toTraining.get_mean_speedE

/-- `SportsWalking.get_spent_calories`:
`(CALORIES_C1 * weight + (get_mean_speed() * KM_IN_MS)**2 / (height / CENTI_IN_MET)
  * CALORIES_C2 * weight) * (duration * MIN_IN_HOUR)`. -/
def SportsWalking.get_spent_calories (t : SportsWalking) : ℚ :=
  (SportsWalking.CALORIES_C1 * t.weight
    + (t.get_mean_speed * SportsWalking.KM_IN_MS) ^ 2
      / (t.height / SportsWalking.CENTI_IN_MET) * SportsWalking.CALORIES_C2
      * t.weight) * (t.duration * Training.MIN_IN_HOUR)

/-- Class `Swimming` (adds `length_pool` in m and `count_pool`). -/
structure Swimming where
  action : ℚ
  duration : ℚ
  weight : ℚ
  length_pool : ℚ
  count_pool : ℚ
deriving DecidableEq, Repr

/-- `Swimming.CALORIES_SWIMMING_1 = 1.1`. -/
def Swimming.CALORIES_SWIMMING_1 : ℚ := 1.1

/-- `Swimming.CALORIES_SWIMMING_2 = 2`. -/
def Swimming.CALORIES_SWIMMING_2 : ℚ := 2

/-- `Swimming.LEN_STEP = 1.38` (overrides the base constant). -/
def Swimming.LEN_STEP : ℚ := 1.38

/-- `Swimming.get_distance` (override): `action * LEN_STEP / M_IN_KM`
with the swimming step length. -/
def Swimming.get_distance (s : Swimming) : ℚ :=
  s.action * Swimming.LEN_STEP / Training.M_IN_KM

/-- `Swimming.get_mean_speed` (override):
`(length_pool * count_pool) / M_IN_KM / duration`. -/
def Swimming.get_mean_speed (s : Swimming) : ℚ :=
  s.length_pool * s.count_pool / Training.M_IN_KM / s.duration

/-- `Swimming.get_mean_speed` with the division fault made explicit. -/
def Swimming.get_mean_speedE (s : Swimming) : Except String ℚ :=
  if s.duration = 0 then Except.error "ZeroDivisionError: division by zero"
  else Except.ok (s.length_pool * s.count_pool / Training.M_IN_KM / s.duration)

/-- `Swimming.get_spent_calories`:
`(get_mean_speed() + CALORIES_SWIMMING_1) * CALORIES_SWIMMING_2 * weight * duration`. -/
def Swimming.get_spent_calories (s : Swimming) : ℚ :=
  (s.get_mean_speed + Swimming.CALORIES_SWIMMING_1)
    * Swimming.CALORIES_SWIMMING_2 * s.weight * s.duration

/-- Render the fractional part of a `.3f` conversion: the last three decimal
digits of `m`, most significant first. -/
def fracDigits3 (m : ℕ) : String :=
  String.mk [Nat.digitChar (m / 100 % 10), Nat.digitChar (m / 10 % 10),
    Nat.digitChar (m % 10)]

/-- Python `'{:.3f}'.format(q)`: the value rendered with exactly three
digits after the decimal point (decimal rounding of `q * 1000`). -/
def formatFixed3 (q : ℚ) : String :=
  (if round (q * 1000) < (0 : ℤ) then "-" else "")
    ++ toString ((round (q * 1000)).natAbs / 1000) ++ "."
    ++ fracDigits3 (round (q * 1000)).natAbs

/-- Dataclass `InfoMessage`: the five computed fields of a workout summary. -/
structure InfoMessage where
  training_type : String
  duration : ℚ
  distance : ℚ
  speed : ℚ
  calories : ℚ

/-- `InfoMessage.get_message`: the fixed template
`'Тип тренировки: {training_type}; Длительность: {duration:.3f} ч.; Дистанция: {distance:.3f} км; Ср. скорость: {speed:.3f} км/ч; Потрачено ккал: {calories:.3f}.'`
with each numeric field formatted via `.3f`. -/
def InfoMessage.get_message (i : InfoMessage) : String :=
  "Тип тренировки: " ++ i.training_type
    ++ "; Длительность: " ++ formatFixed3 i.duration
    ++ " ч.; Дистанция: " ++ formatFixed3 i.distance
    ++ " км; Ср. скорость: " ++ formatFixed3 i.speed
    ++ " км/ч; Потрачено ккал: " ++ formatFixed3 i.calories ++ "."

/-- `Training.show_training_info` specialised to `Running`. -/
def Running.show_training_info (r : Running) : InfoMessage :=
  ⟨"Running", r.duration, r.get_distance, r.get_mean_speed, r.get_spent_calories⟩

/-- `Training.show_training_info` specialised to `SportsWalking`. -/
def SportsWalking.show_training_info (t : SportsWalking) : InfoMessage :=
  ⟨"SportsWalking", t.duration, t.get_distance, t.get_mean_speed,
    t.get_spent_calories⟩

/-- `Training.show_training_info` specialised to `Swimming`. -/
def Swimming.show_training_info (s : Swimming) : InfoMessage :=
  ⟨"Swimming", s.duration, s.get_distance, s.get_mean_speed,
    s.get_spent_calories⟩

/-- The runtime type of the object `read_package` constructs. -/
inductive TrainingObj where
  | swm : Swimming → TrainingObj
  | run : Running → TrainingObj
  | wlk : SportsWalking → TrainingObj
deriving DecidableEq, Repr

/-- `read_package`: dispatch on the workout code through the mapping
`{'SWM': Swimming, 'RUN': Running, 'WLK': SportsWalking}`, applying `data`
positionally to the constructor; an absent code raises
`ValueError(f"Такой тренировки - {workout_type}, не найдено")`.
A `data` list of the wrong arity makes the positional unpacking itself
fail (Python `TypeError`), modelled as a distinct error. -/
def read_package (workout_type : String) (data : List ℚ) :
    Except String TrainingObj :=
  if workout_type = "SWM" then
    match data with
    | [action, duration, weight, length_pool, count_pool] =>
        Except.ok (TrainingObj.swm
          ⟨action, duration, weight, length_pool, count_pool⟩)
    | _ => Except.error "TypeError: wrong number of positional arguments"
  else if workout_type = "RUN" then
    match data with
    | [action, duration, weight] =>
        Except.ok (TrainingObj.run ⟨action, duration, weight⟩)
    | _ => Except.error "TypeError: wrong number of positional arguments"
  else if workout_type = "WLK" then
    match data with
    | [action, duration, weight, height] =>
        Except.ok (TrainingObj.wlk ⟨action, duration, weight, height⟩)
    | _ => Except.error "TypeError: wrong number of positional arguments"
  else Except.error ("Такой тренировки - " ++ workout_type ++ ", не найдено")

/-- C3: every `Running` workout burns
`(18 * get_mean_speed() + 1.79) * weight / 1000 * duration * 60` calories,
and its distance and mean speed are the unchanged base formulas
`action * 0.65 / 1000` and `distance / duration`. -/
theorem running_formulas (r : Running) :
    r.get_spent_calories
      = (18 * r.get_mean_speed + 1.79) * r.weight / 1000 * r.duration * 60
    ∧ r.get_distance = r.action * 0.65 / 1000
    ∧ r.get_mean_speed = r.get_distance / r.duration := by
  refine ⟨rfl, rfl, rfl⟩

/-- C4: every `SportsWalking` workout burns
`(0.035 * weight + (get_mean_speed() * 0.278)^2 / (height / 100) * 0.029 * weight)
  * (duration * 60)` calories, with distance and mean speed taken unchanged
from the base (0.65 m step). -/
theorem walking_formulas (t : SportsWalking) :
    t.get_spent_calories
      = (0.035 * t.weight
          + (t.get_mean_speed * 0.278) ^ 2 / (t.height / 100) * 0.029
            * t.weight) * (t.duration * 60)
    ∧ t.get_distance = t.action * 0.65 / 1000
    ∧ t.get_mean_speed = t.get_distance / t.duration := by
  refine ⟨rfl, rfl, rfl⟩

/-- C5: every `Swimming` workout has distance `action * 1.38 / 1000`,
mean speed `(length_pool * count_pool) / 1000 / duration`, and calories
`(get_mean_speed() + 1.1) * 2 * weight * duration`. -/
theorem swimming_formulas (s : Swimming) :
    s.get_distance = s.action * 1.38 / 1000
    ∧ s.get_mean_speed = s.length_pool * s.count_pool / 1000 / s.duration
    ∧ s.get_spent_calories
        = (s.get_mean_speed + 1.1) * 2 * s.weight * s.duration := by
  refine ⟨rfl, rfl, rfl⟩

/-- C10: two `Swimming` workouts that agree on duration, weight, pool length
and lap count but differ in stroke count have identical mean speed and
identical calories — only the distance depends on `action`. -/
theorem swimming_speed_calories_independent_of_action
    (s₁ s₂ : Swimming) (hd : s₁.duration = s₂.duration)
    (hw : s₁.weight = s₂.weight) (hl : s₁.length_pool = s₂.length_pool)
    (hc : s₁.count_pool = s₂.count_pool) (ha : s₁.action ≠ s₂.action) :
    s₁.get_mean_speed = s₂.get_mean_speed
    ∧ s₁.get_spent_calories = s₂.get_spent_calories := by
  have hs : s₁.get_mean_speed = s₂.get_mean_speed := by
    unfold Swimming.get_mean_speed
    rw [hd, hl, hc]
  refine ⟨hs, ?_⟩
  unfold Swimming.get_spent_calories
  rw [hs, hd, hw]

/-- Witness for C10 at two concrete pools differing only in stroke count. -/
theorem swimming_speed_calories_independent_of_action_witness :
    Swimming.get_mean_speed ⟨720, 1, 80, 25, 40⟩
      = Swimming.get_mean_speed ⟨900, 1, 80, 25, 40⟩
    ∧ Swimming.get_spent_calories ⟨720, 1, 80, 25, 40⟩
      = Swimming.get_spent_calories ⟨900, 1, 80, 25, 40⟩ :=
  swimming_speed_calories_independent_of_action
    ⟨720, 1, 80, 25, 40⟩ ⟨900, 1, 80, 25, 40⟩ rfl rfl rfl rfl (by decide)

/-- C1 counterexample: for `Running(action=15000, duration=1, weight=75)`
the code returns exactly 797.805 kcal, which is not 798.528 and is not even
approximately 798.528: the gap is 0.723, far beyond 3-decimal rounding. -/
theorem running_demo_calories_ne_spec_value :
    Running.get_spent_calories ⟨15000, 1, 75⟩ = 797.805
    ∧ Running.get_spent_calories ⟨15000, 1, 75⟩ ≠ 798.528
    ∧ (798.528 : ℚ) - Running.get_spent_calories ⟨15000, 1, 75⟩ = 0.723 := by
  have h : Running.get_spent_calories ⟨15000, 1, 75⟩ = 797.805 := by
    norm_num [Running.get_spent_calories, Running.get_mean_speed,
      Running.get_distance, Running.toTraining, Training.get_mean_speed,
      Training.get_distance, Running.CALORIES_M, Running.CALORIES_S,
      Training.M_IN_KM, Training.MIN_IN_HOUR, Training.LEN_STEP]
  refine ⟨h, by rw [h]; norm_num, by rw [h]; norm_num⟩

/-- C1 (amended): for `Running(action=15000, duration=1, weight=75)`,
distance = 9.750 km, mean speed = 9.750 km/h, and calories equal the formula
value `(18 * 9.75 + 1.79) * 75 / 1000 * 1 * 60`, which is exactly 797.805
(the spec's approximation 798.528 is a spec arithmetic slip). -/
theorem running_demo_metrics :
    Running.get_distance ⟨15000, 1, 75⟩ = 9.750
    ∧ Running.get_mean_speed ⟨15000, 1, 75⟩ = 9.750
    ∧ Running.get_spent_calories ⟨15000, 1, 75⟩
        = (18 * 9.75 + 1.79) * 75 / 1000 * 1 * 60
    ∧ Running.get_spent_calories ⟨15000, 1, 75⟩ = 797.805 := by
  refine ⟨?_, ?_, ?_, ?_⟩ <;>
    norm_num [Running.get_spent_calories, Running.get_mean_speed,
      Running.get_distance, Running.toTraining, Training.get_mean_speed,
      Training.get_distance, Running.CALORIES_M, Running.CALORIES_S,
      Training.M_IN_KM, Training.MIN_IN_HOUR, Training.LEN_STEP]

/-- C2 counterexample: for
`SportsWalking(action=9000, duration=1, weight=75, height=180)` the §4.3
formula as implemented returns exactly 349.251747525 kcal, nowhere near the
spec value 168.318 (the gap is 180.933747525). -/
theorem walking_demo_calories_ne_spec_value :
    SportsWalking.get_spent_calories ⟨9000, 1, 75, 180⟩ = 349.251747525
    ∧ SportsWalking.get_spent_calories ⟨9000, 1, 75, 180⟩ ≠ 168.318
    ∧ SportsWalking.get_spent_calories ⟨9000, 1, 75, 180⟩ - (168.318 : ℚ)
        = 180.933747525 := by
  have h : SportsWalking.get_spent_calories ⟨9000, 1, 75, 180⟩
      = 349.251747525 := by
    norm_num [SportsWalking.get_spent_calories, SportsWalking.get_mean_speed,
      SportsWalking.get_distance, SportsWalking.toTraining,
      Training.get_mean_speed, Training.get_distance,
      SportsWalking.CALORIES_C1, SportsWalking.CALORIES_C2,
      SportsWalking.KM_IN_MS, SportsWalking.CENTI_IN_MET,
      Training.M_IN_KM, Training.MIN_IN_HOUR, Training.LEN_STEP]
  refine ⟨h, by rw [h]; norm_num, by rw [h]; norm_num⟩

/-- C2 (amended): for
`SportsWalking(action=9000, duration=1, weight=75, height=180)`,
distance = 5.850 km, mean speed = 5.850 km/h, and calories equal the §4.3
formula value `(0.035*75 + (5.85*0.278)^2 / (180/100) * 0.029 * 75) * (1*60)`,
which is exactly 349.251747525 (≈ 349.252; the spec's 168.318 is wrong). -/
theorem walking_demo_metrics :
    SportsWalking.get_distance ⟨9000, 1, 75, 180⟩ = 5.850
    ∧ SportsWalking.get_mean_speed ⟨9000, 1, 75, 180⟩ = 5.850
    ∧ SportsWalking.get_spent_calories ⟨9000, 1, 75, 180⟩
        = (0.035 * 75 + (5.85 * 0.278) ^ 2 / (180 / 100) * 0.029 * 75)
            * (1 * 60)
    ∧ SportsWalking.get_spent_calories ⟨9000, 1, 75, 180⟩
        = 349.251747525 := by
  refine ⟨?_, ?_, ?_, ?_⟩ <;>
    norm_num [SportsWalking.get_spent_calories, SportsWalking.get_mean_speed,
      SportsWalking.get_distance, SportsWalking.toTraining,
      Training.get_mean_speed, Training.get_distance,
      SportsWalking.CALORIES_C1, SportsWalking.CALORIES_C2,
      SportsWalking.KM_IN_MS, SportsWalking.CENTI_IN_MET,
      Training.M_IN_KM, Training.MIN_IN_HOUR, Training.LEN_STEP]

/-- C6 counterexample: for
`Swimming(action=720, duration=1, weight=80, length_pool=25, count_pool=40)`
the code returns distance `720 * 1.38 / 1000 = 0.9936` km, which is not
equal to 0.994: that figure is only its 3-decimal rendering. -/
theorem swimming_demo_distance_ne_rounded :
    Swimming.get_distance ⟨720, 1, 80, 25, 40⟩ = 0.9936
    ∧ Swimming.get_distance ⟨720, 1, 80, 25, 40⟩ ≠ 0.994 := by
  have h : Swimming.get_distance ⟨720, 1, 80, 25, 40⟩ = 0.9936 := by
    norm_num [Swimming.get_distance, Swimming.LEN_STEP, Training.M_IN_KM]
  refine ⟨h, by rw [h]; norm_num⟩

/-- C6 (amended): for
`Swimming(action=720, duration=1, weight=80, length_pool=25, count_pool=40)`,
distance = `720 * 1.38 / 1000` = 0.9936 km, rendered as `0.994` at
3 decimals, mean speed = `(25 * 40) / 1000 / 1` = 1.000 km/h, and calories
= `(1.000 + 1.1) * 2 * 80 * 1` = 336.000. -/
theorem swimming_demo_metrics :
    Swimming.get_distance ⟨720, 1, 80, 25, 40⟩ = 720 * 1.38 / 1000
    ∧ Swimming.get_distance ⟨720, 1, 80, 25, 40⟩ = 0.9936
    ∧ formatFixed3 (Swimming.get_distance ⟨720, 1, 80, 25, 40⟩) = "0.994"
    ∧ Swimming.get_mean_speed ⟨720, 1, 80, 25, 40⟩ = 25 * 40 / 1000 / 1
    ∧ Swimming.get_mean_speed ⟨720, 1, 80, 25, 40⟩ = 1.000
    ∧ Swimming.get_spent_calories ⟨720, 1, 80, 25, 40⟩
        = (1.000 + 1.1) * 2 * 80 * 1
    ∧ Swimming.get_spent_calories ⟨720, 1, 80, 25, 40⟩ = 336.000 := by
  have hd : Swimming.get_distance ⟨720, 1, 80, 25, 40⟩ = 0.9936 := by
    norm_num [Swimming.get_distance, Swimming.LEN_STEP, Training.M_IN_KM]
  have hr : round ((0.9936 : ℚ) * 1000) = (994 : ℤ) := by
    rw [round_eq]; norm_num
  refine ⟨?_, hd, ?_, ?_, ?_, ?_, ?_⟩
  · norm_num [Swimming.get_distance, Swimming.LEN_STEP, Training.M_IN_KM]
  · rw [hd]
    simp only [formatFixed3, hr]
    decide
  all_goals
    norm_num [Swimming.get_mean_speed, Swimming.get_spent_calories,
      Swimming.CALORIES_SWIMMING_1, Swimming.CALORIES_SWIMMING_2,
      Training.M_IN_KM]

/-- Every decimal digit character produced by `Nat.digitChar` on a value
below 10 satisfies `Char.isDigit`. -/
theorem digitChar_isDigit : ∀ k < 10, (Nat.digitChar k).isDigit = true := by
  decide

/-- C7: `read_package` fails with the `ValueError` naming the offending code
for every code outside `SWM`/`RUN`/`WLK` (exact, case-sensitive matching),
and for each valid code constructs the mapped variant from the positional
argument list. -/
theorem read_package_dispatch :
    (∀ (workout_type : String) (data : List ℚ),
      workout_type ≠ "SWM" → workout_type ≠ "RUN" → workout_type ≠ "WLK" →
      read_package workout_type data
        = Except.error
            ("Такой тренировки - " ++ workout_type ++ ", не найдено"))
    ∧ (∀ action duration weight length_pool count_pool : ℚ,
        read_package "SWM" [action, duration, weight, length_pool, count_pool]
          = Except.ok (TrainingObj.swm
              ⟨action, duration, weight, length_pool, count_pool⟩))
    ∧ (∀ action duration weight : ℚ,
        read_package "RUN" [action, duration, weight]
          = Except.ok (TrainingObj.run ⟨action, duration, weight⟩))
    ∧ (∀ action duration weight height : ℚ,
        read_package "WLK" [action, duration, weight, height]
          = Except.ok (TrainingObj.wlk ⟨action, duration, weight, height⟩)) := by
  refine ⟨?_, fun a d w l c => rfl, fun a d w => rfl, fun a d w h => rfl⟩
  intro workout_type data h1 h2 h3
  simp [read_package, h1, h2, h3]

/-- Witness for C7: the unknown code `XYZ` is rejected with the error
naming it, and each of the three valid codes builds its mapped variant. -/
theorem read_package_dispatch_witness :
    read_package "XYZ" [1, 2, 3]
      = Except.error ("Такой тренировки - " ++ "XYZ" ++ ", не найдено")
    ∧ read_package "SWM" [720, 1, 80, 25, 40]
      = Except.ok (TrainingObj.swm ⟨720, 1, 80, 25, 40⟩)
    ∧ read_package "RUN" [15000, 1, 75]
      = Except.ok (TrainingObj.run ⟨15000, 1, 75⟩)
    ∧ read_package "WLK" [9000, 1, 75, 180]
      = Except.ok (TrainingObj.wlk ⟨9000, 1, 75, 180⟩) :=
  ⟨read_package_dispatch.1 "XYZ" [1, 2, 3]
      (by decide) (by decide) (by decide),
    read_package_dispatch.2.1 720 1 80 25 40,
    read_package_dispatch.2.2.1 15000 1 75,
    read_package_dispatch.2.2.2 9000 1 75 180⟩

/-- C8: every rendered message follows the fixed template with the fields in
order — workout type, duration, distance, mean speed, calories — and every
`.3f` conversion shows exactly three decimal digits after the point,
whatever the value (trailing zeros included). -/
theorem get_message_format :
    (∀ i : InfoMessage, i.get_message
        = "Тип тренировки: " ++ i.training_type
          ++ "; Длительность: " ++ formatFixed3 i.duration
          ++ " ч.; Дистанция: " ++ formatFixed3 i.distance
          ++ " км; Ср. скорость: " ++ formatFixed3 i.speed
          ++ " км/ч; Потрачено ккал: " ++ formatFixed3 i.calories ++ ".")
    ∧ (∀ q : ℚ, ∃ intPart frac, formatFixed3 q = intPart ++ "." ++ frac
        ∧ frac.length = 3 ∧ ∀ c ∈ frac.data, c.isDigit = true) := by
  refine ⟨fun i => rfl, fun q => ?_⟩
  refine ⟨(if round (q * 1000) < (0 : ℤ) then "-" else "")
      ++ toString ((round (q * 1000)).natAbs / 1000),
    fracDigits3 (round (q * 1000)).natAbs, ?_, rfl, ?_⟩
  · simp only [formatFixed3, String.append_assoc]
  · intro c hc
    have hm : ∀ k : ℕ, k % 10 < 10 := fun k => Nat.mod_lt _ (by norm_num)
    rcases hc with _ | ⟨_, _ | ⟨_, _ | ⟨_, h⟩⟩⟩
    · exact digitChar_isDigit _ (hm _)
    · exact digitChar_isDigit _ (hm _)
    · exact digitChar_isDigit _ (hm _)
    · cases h

/-- C9: with non-negative inputs and positive duration, every variant's
distance and mean speed are non-negative; with zero duration, computing the
mean speed is an unhandled division-by-zero fault for every variant. -/
theorem metrics_nonneg_and_zero_duration_fault :
    (∀ r : Running, 0 ≤ r.action → 0 ≤ r.weight → 0 < r.duration →
      0 ≤ r.get_distance ∧ 0 ≤ r.get_mean_speed)
    ∧ (∀ t : SportsWalking, 0 ≤ t.action → 0 ≤ t.weight → 0 < t.duration →
      0 ≤ t.get_distance ∧ 0 ≤ t.get_mean_speed)
    ∧ (∀ s : Swimming, 0 ≤ s.action → 0 ≤ s.weight → 0 ≤ s.length_pool →
      0 ≤ s.count_pool → 0 < s.duration →
      0 ≤ s.get_distance ∧ 0 ≤ s.get_mean_speed)
    ∧ (∀ r : Running, r.duration = 0 → r.get_mean_speedE
        = Except.error "ZeroDivisionError: division by zero")
    ∧ (∀ t : SportsWalking, t.duration = 0 → t.get_mean_speedE
        = Except.error "ZeroDivisionError: division by zero")
    ∧ (∀ s : Swimming, s.duration = 0 → s.get_mean_speedE
        = Except.error "ZeroDivisionError: division by zero") := by
  have base_dist : ∀ t : Training, 0 ≤ t.action → 0 ≤ t.get_distance := by
    intro t ha
    unfold Training.get_distance
    have h1 : (0 : ℚ) ≤ Training.LEN_STEP := by norm_num [Training.LEN_STEP]
    have h2 : (0 : ℚ) ≤ Training.M_IN_KM := by norm_num [Training.M_IN_KM]
    exact div_nonneg (mul_nonneg ha h1) h2
  have base_speed : ∀ t : Training, 0 ≤ t.action → 0 < t.duration →
      0 ≤ t.get_mean_speed := by
    intro t ha hd
    exact div_nonneg (base_dist t ha) hd.le
  refine ⟨?_, ?_, ?_, ?_, ?_, ?_⟩
  · intro r ha _ hd
    exact ⟨base_dist r.toTraining ha, base_speed r.toTraining ha hd⟩
  · intro t ha _ hd
    exact ⟨base_dist t.toTraining ha, base_speed t.toTraining ha hd⟩
  · intro s ha _ hl hc hd
    constructor
    · unfold Swimming.get_distance
      have h1 : (0 : ℚ) ≤ Swimming.LEN_STEP := by norm_num [Swimming.LEN_STEP]
      have h2 : (0 : ℚ) ≤ Training.M_IN_KM := by norm_num [Training.M_IN_KM]
      exact div_nonneg (mul_nonneg ha h1) h2
    · unfold Swimming.get_mean_speed
      have h2 : (0 : ℚ) ≤ Training.M_IN_KM := by norm_num [Training.M_IN_KM]
      exact div_nonneg (div_nonneg (mul_nonneg hl hc) h2) hd.le
  · intro r h
    simp [Running.get_mean_speedE, Training.get_mean_speedE,
      Running.toTraining, h]
  · intro t h
    simp [SportsWalking.get_mean_speedE, Training.get_mean_speedE,
      SportsWalking.toTraining, h]
  · intro s h
    simp [Swimming.get_mean_speedE, h]

/-- Witness for C9 at the three demo workouts, with zero-duration variants
for the fault clause. -/
theorem metrics_nonneg_and_zero_duration_fault_witness :
    (0 ≤ Running.get_distance ⟨15000, 1, 75⟩
      ∧ 0 ≤ Running.get_mean_speed ⟨15000, 1, 75⟩)
    ∧ (0 ≤ SportsWalking.get_distance ⟨9000, 1, 75, 180⟩
      ∧ 0 ≤ SportsWalking.get_mean_speed ⟨9000, 1, 75, 180⟩)
    ∧ (0 ≤ Swimming.get_distance ⟨720, 1, 80, 25, 40⟩
      ∧ 0 ≤ Swimming.get_mean_speed ⟨720, 1, 80, 25, 40⟩)
    ∧ Running.get_mean_speedE ⟨15000, 0, 75⟩
      = Except.error "ZeroDivisionError: division by zero"
    ∧ SportsWalking.get_mean_speedE ⟨9000, 0, 75, 180⟩
      = Except.error "ZeroDivisionError: division by zero"
    ∧ Swimming.get_mean_speedE ⟨720, 0, 80, 25, 40⟩
      = Except.error "ZeroDivisionError: division by zero" :=
  ⟨metrics_nonneg_and_zero_duration_fault.1 ⟨15000, 1, 75⟩
      (by norm_num) (by norm_num) (by norm_num),
    metrics_nonneg_and_zero_duration_fault.2.1 ⟨9000, 1, 75, 180⟩
      (by norm_num) (by norm_num) (by norm_num),
    metrics_nonneg_and_zero_duration_fault.2.2.1 ⟨720, 1, 80, 25, 40⟩
      (by norm_num) (by norm_num) (by norm_num) (by norm_num) (by norm_num),
    metrics_nonneg_and_zero_duration_fault.2.2.2.1 ⟨15000, 0, 75⟩ rfl,
    metrics_nonneg_and_zero_duration_fault.2.2.2.2.1 ⟨9000, 0, 75, 180⟩ rfl,
    metrics_nonneg_and_zero_duration_fault.2.2.2.2.2 ⟨720, 0, 80, 25, 40⟩ rfl⟩
